import Mathlib

/-!
Verification of the turn-coordination core, tool dispatch and enrichment
pipeline of the 911 AI operator dashboard.

The development shallowly embeds:
* the live call page (`src/pages/helper.ts`, `Home` component, third page
  variant): the message timeline, the `respond` generation attempts with
  their staleness checks, and the `asyncChecks` enrichment merge;
* the server-side conversation handler (`src/unnamed/part_001`):
  `handleUserMessage`, `handleToolResponse`, the `end-call` tool and the
  dispatch of `search-map` / `search-person`;
* the batch analysis route (`src/pages/helper.ts`, first page variant):
  `analyzeConversation`, the `searchLocation` / `searchPerson` tools with
  their query guards, and the `POST` wrapper.

External engines (speech-to-text, text generation, text-to-speech, web
search, places lookup) are modelled as oracles: explicit inputs holding the
value the external call returns, with `Except` capturing a thrown/rejected
call.  JavaScript numbers that only flow through the code are modelled as
`Int`; JavaScript string length/trim are modelled by `String.length` /
`String.trim` (the inputs of interest are ASCII, where the two agree).
-/

namespace NineOneOne

/-! ### Timeline data model (src/pages/helper.ts, Home component)

A timeline entry: `{ role, content, id, buffer, sentiment? }`.  Message ids
are produced by `crypto.randomUUID()`; we model them as naturals drawn from
a fresh-id counter, which captures exactly the property the code relies on
(a newly minted id differs from every id already in the timeline).  The
audio buffer is a byte list. -/

inductive Role where
  | user
  | assistant
deriving DecidableEq

structure Msg where
  id : Nat
  role : Role
  content : String
  buffer : List Nat
  sentiment : Option String
deriving DecidableEq

def rolesOf (tl : List Msg) : List Role := tl.map Msg.role

def idsOf (tl : List Msg) : List Nat := tl.map Msg.id

/-- `messages[messages.length - 1].id`, as read by the staleness checks of
`respond` (helper.ts lines 774, 785, 792); `none` when the timeline is
empty. -/
def lastMsgId (tl : List Msg) : Option Nat := tl.getLast?.map Msg.id

/-- The timeline never holds two consecutive `assistant` entries. -/
def NoTwoAssistants (tl : List Msg) : Prop :=
  List.Chain' (fun a b => ¬(a = Role.assistant ∧ b = Role.assistant)) (rolesOf tl)

/-- The sentiment merge of `asyncChecks` (helper.ts lines 743-750):
`findIndex` on the triggering message id, then assignment of the sentiment
field of that entry; the timeline is returned unchanged when the id is not
found.  `findIndex` locates the first match, which the recursion mirrors. -/
def mergeSentimentFn (tl : List Msg) (targetId : Nat) (emotion : String) : List Msg :=
  match tl with
  | [] => []
  | m :: rest =>
    if m.id = targetId then { m with sentiment := some emotion } :: rest
    else m :: mergeSentimentFn rest targetId emotion

/-- Everything of a timeline entry except its sentiment field. -/
def stripSentiment (m : Msg) : Nat × Role × String × List Nat :=
  (m.id, m.role, m.content, m.buffer)

/-! ### Turn coordinator transition system

The live page is single-threaded with suspension points at every `await`.
We model it as a labelled transition system.  A `respond` call (helper.ts
lines 762-807) is an `Attempt`.  React semantics are load-bearing here and
are embedded as they are:

* `messages` and `isSpeaking` are `useState` values — per-render
  constants.  The `respond` closure invoked by the `[isSpeaking]` effect
  (lines 617-624) captures the values of the render that ran the effect;
  those captured values never change for the lifetime of that `respond`
  call.  An `Attempt` therefore carries its own `snapTimeline` and
  `snapSpeaking` snapshot.
* `lastID` (line 764) is computed from that same snapshot
  (`capturedLastID`), and each check at lines 774, 785 and 792 reads
  `messages` / `isSpeaking` from that same snapshot again
  (`respondStaleCheck`) — it does not see the live state.
* `setMessages(prev => [...prev, msg])` (line 806) is a functional
  update: the append lands on the *live* timeline, whatever it has become.
* `audioSpeaker` is a `useRef` cell — a stable mutable object, so the
  `!audioSpeaker.current` test and playback act on live state.

The program counter `pc` counts the completed suspension points (text
generation, speech synthesis, blob materialization): at `pc = 2` the next
resumption performs the final check and, when it passes and the audio
element exists, appends the assistant message and starts playback (all
synchronously, with no further suspension). -/

structure Attempt where
  snapTimeline : List Msg
  snapSpeaking : Bool
  pc : Nat
deriving DecidableEq

/-- `const lastID = messages?.[messages.length - 1]?.id || null` (line
764): the id captured at the attempt's start, read from the closure's
render snapshot. -/
def capturedLastID (a : Attempt) : Option Nat := lastMsgId a.snapTimeline

/-- `messages[messages.length - 1].id !== lastID || isSpeaking` (lines
774, 785, 792): the abandon condition of each resumption.  `messages` and
`isSpeaking` here are the same render-scoped snapshot the closure
captured — not the live state — so the id comparison re-reads the very
list from which `lastID` was derived. -/
def respondStaleCheck (a : Attempt) : Prop :=
  lastMsgId a.snapTimeline ≠ capturedLastID a ∨ a.snapSpeaking = true

instance (a : Attempt) : Decidable (respondStaleCheck a) :=
  inferInstanceAs (Decidable
    (lastMsgId a.snapTimeline ≠ capturedLastID a ∨ a.snapSpeaking = true))

structure SysState where
  timeline : List Msg
  isSpeaking : Bool
  speakerReady : Bool
  playing : Bool
  attempts : List Attempt
  nextId : Nat
deriving DecidableEq

/-- Initial component state: empty timeline, not speaking, audio element
not yet created, nothing playing, no attempt in flight. -/
def initState : SysState :=
  { timeline := [], isSpeaking := false, speakerReady := false,
    playing := false, attempts := [], nextId := 0 }

inductive Event where
  | initSpeaker
  | speechStart
  | finalize (content : String) (buffer : List Nat)
  | startRespond
  | advance (a : Attempt)
  | abortStale (a : Attempt)
  | commit (a : Attempt) (text : String) (buffer : List Nat)
  | commitNoSpeaker (a : Attempt)
  | mergeSent (targetId : Nat) (emotion : String)

/-- One scheduling step of the live page.

* `initSpeaker`: the mount effect `audioSpeaker.current = new Audio()`
  (a live ref cell).
* `speechStart`: the VAD `onSpeechStart` callback — pauses playback and
  sets `isSpeaking`.
* `finalize`: `onSpeechEnd` after transcription — appends a `user` message
  with a fresh id and clears `isSpeaking`.
* `startRespond`: the `[isSpeaking]` effect when not speaking and the last
  entry has role `user` — starts a generation attempt whose closure
  snapshot is the state of that render.
* `advance`: an attempt resumes at one of its first two suspension points
  and its check (over its own snapshot) does not fire.
* `abortStale`: an attempt resumes and its snapshot check fires — it
  returns silently.
* `commit`: an attempt resumes at its last suspension point, its snapshot
  check does not fire and the (live) audio ref exists — it appends one
  `assistant` message to the live timeline via the functional
  `setMessages` update and starts playback.
* `commitNoSpeaker`: same resumption with no audio element — returns
  without appending.
* `mergeSent`: the `asyncChecks` functional state update attaching a
  sentiment label by id. -/
inductive Step : SysState → Event → SysState → Prop where
  | initSpeaker (s : SysState) :
      Step s .initSpeaker { s with speakerReady := true }
  | speechStart (s : SysState) :
      Step s .speechStart { s with isSpeaking := true, playing := false }
  | finalize (s : SysState) (c : String) (b : List Nat) :
      Step s (.finalize c b)
        { s with timeline := s.timeline ++ [⟨s.nextId, .user, c, b, none⟩],
                 nextId := s.nextId + 1, isSpeaking := false }
  | startRespond (s : SysState) (m : Msg)
      (hm : s.timeline.getLast? = some m) (hrole : m.role = .user)
      (hsp : s.isSpeaking = false) :
      Step s .startRespond
        { s with attempts := ⟨s.timeline, s.isSpeaking, 0⟩ :: s.attempts }
  | advance (s : SysState) (a : Attempt) (ha : a ∈ s.attempts) (hpc : a.pc < 2)
      (hfresh : ¬respondStaleCheck a) :
      Step s (.advance a)
        { s with attempts := ⟨a.snapTimeline, a.snapSpeaking, a.pc + 1⟩ :: s.attempts.erase a }
  | abortStale (s : SysState) (a : Attempt) (ha : a ∈ s.attempts)
      (hstale : respondStaleCheck a) :
      Step s (.abortStale a) { s with attempts := s.attempts.erase a }
  | commit (s : SysState) (a : Attempt) (t : String) (b : List Nat)
      (ha : a ∈ s.attempts) (hpc : a.pc = 2)
      (hfresh : ¬respondStaleCheck a)
      (hready : s.speakerReady = true) :
      Step s (.commit a t b)
        { s with timeline := s.timeline ++ [⟨s.nextId, .assistant, t, b, none⟩],
                 nextId := s.nextId + 1, playing := true,
                 attempts := s.attempts.erase a }
  | commitNoSpeaker (s : SysState) (a : Attempt) (ha : a ∈ s.attempts) (hpc : a.pc = 2)
      (hfresh : ¬respondStaleCheck a)
      (hready : s.speakerReady = false) :
      Step s (.commitNoSpeaker a) { s with attempts := s.attempts.erase a }
  | mergeSent (s : SysState) (tid : Nat) (e : String) :
      Step s (.mergeSent tid e)
        { s with timeline := mergeSentimentFn s.timeline tid e }

inductive Reachable : SysState → Prop where
  | init : Reachable initState
  | step {s : SysState} {e : Event} {s' : SysState} :
      Reachable s → Step s e s' → Reachable s'

/-! The rapid-interruption interleaving of spec section 8: utterance U1
(id 0) is finalized and attempt 1 starts; the caller speaks again and U2
(id 1) is finalized, so attempt 2 starts while attempt 1 is still in
flight; attempt 1 then resumes through its three checks — which read only
its own render snapshot — and commits, after which attempt 2 also
commits. -/

def exT1 : SysState := { initState with speakerReady := true }

def exT2 : SysState :=
  { exT1 with
    timeline := exT1.timeline ++
      [⟨exT1.nextId, .user, "There is a fire at Main and 5th", [7], none⟩],
    nextId := exT1.nextId + 1, isSpeaking := false }

/-- Attempt 1: the `respond` closure created for U1's render. -/
def exA1 : Attempt := ⟨exT2.timeline, exT2.isSpeaking, 0⟩

def exT3 : SysState := { exT2 with attempts := exA1 :: exT2.attempts }

def exT4 : SysState := { exT3 with isSpeaking := true, playing := false }

def exT5 : SysState :=
  { exT4 with
    timeline := exT4.timeline ++ [⟨exT4.nextId, .user, "He is coming closer", [4], none⟩],
    nextId := exT4.nextId + 1, isSpeaking := false }

/-- Attempt 2: the `respond` closure created for U2's render. -/
def exA2 : Attempt := ⟨exT5.timeline, exT5.isSpeaking, 0⟩

def exT6 : SysState := { exT5 with attempts := exA2 :: exT5.attempts }

def exA1b : Attempt := ⟨exA1.snapTimeline, exA1.snapSpeaking, exA1.pc + 1⟩

def exT7 : SysState := { exT6 with attempts := exA1b :: exT6.attempts.erase exA1 }

def exA1c : Attempt := ⟨exA1b.snapTimeline, exA1b.snapSpeaking, exA1b.pc + 1⟩

def exT8 : SysState := { exT7 with attempts := exA1c :: exT7.attempts.erase exA1b }

/-- Attempt 1's (stale) commit: the live timeline already ends in U2. -/
def exT9 : SysState :=
  { exT8 with
    timeline := exT8.timeline ++
      [⟨exT8.nextId, .assistant, "Okay, officers are on the way.", [5], none⟩],
    nextId := exT8.nextId + 1, playing := true,
    attempts := exT8.attempts.erase exA1c }

def exA2b : Attempt := ⟨exA2.snapTimeline, exA2.snapSpeaking, exA2.pc + 1⟩

def exT10 : SysState := { exT9 with attempts := exA2b :: exT9.attempts.erase exA2 }

def exA2c : Attempt := ⟨exA2b.snapTimeline, exA2b.snapSpeaking, exA2b.pc + 1⟩

def exT11 : SysState := { exT10 with attempts := exA2c :: exT10.attempts.erase exA2b }

/-- Attempt 2's commit: the timeline now ends in two assistant entries. -/
def exT12 : SysState :=
  { exT11 with
    timeline := exT11.timeline ++
      [⟨exT11.nextId, .assistant, "Stay on the line with me.", [6], none⟩],
    nextId := exT11.nextId + 1, playing := true,
    attempts := exT11.attempts.erase exA2c }

/-! ### Server-side conversation handler (src/unnamed/part_001)

`handleUserMessage` / `handleToolResponse` maintain a global
`conversationState`; we pass the state explicitly.  The external model is
an oracle: a list of replies consumed one per call, where an `Except.error`
entry models a call that throws/rejects.  Every result carries the number
of model calls performed. -/

inductive PRole where
  | system
  | user
  | assistant
  | tool
deriving DecidableEq

/-- A tool call requested by the model.  Its JSON `arguments` payload holds
a single field (`query` for the search tools, `reason` for `end-call`),
modelled as `arg`. -/
structure ToolCall where
  id : String
  name : String
  arg : String
deriving DecidableEq

structure PMsg where
  role : PRole
  content : Option String
  toolCalls : List ToolCall
  toolCallId : Option String
deriving DecidableEq

structure ModelResponse where
  content : Option String
  toolCalls : List ToolCall
deriving DecidableEq

structure ConvState where
  messages : List PMsg
  isActive : Bool
  hasEnded : Bool
  endReason : Option String
deriving DecidableEq

def initialConversationState : ConvState :=
  { messages := [], isActive := false, hasEnded := false, endReason := none }

/-- JavaScript `a || b` on a possibly-absent string: the default is used
both for a missing value and for the empty (falsy) string. -/
def jsOr (s : Option String) (d : String) : String :=
  match s with
  | some c => if c = "" then d else c
  | none => d

def operatorSystemPrompt : String :=
  "You are a 911 operator on phone so talk accordingly (keep your responses short). You should gather information about the emergency situation and the caller's whereabouts. Do not reveal your capabilities. Respond as a real 911 operator would. If the emergency has been fully addressed or help is confirmed to be on the way, use the end-call tool to conclude the conversation."

/-- The state installed on the first message of an inactive conversation. -/
def startedState : ConvState :=
  { messages := [⟨.system, some operatorSystemPrompt, [], none⟩],
    isActive := true, hasEnded := false, endReason := none }

/-- `searchMap` of part_001.  Its JSON-serialized payload (mock location
table, nearby landmarks) and the browser side effect are opaque to every
verified claim; the payload is modelled as a tagged string. -/
def searchMapTool (query : String) : String :=
  "search-map results for " ++ query

/-- `searchPerson` of part_001; payload opaque to every verified claim. -/
def searchPersonLocalTool (query : String) : String :=
  "search-person results for " ++ query

/-- `endCall` of part_001; payload opaque to every verified claim. -/
def endCallTool (reason : String) : String :=
  "call ended: " ++ reason

/-- One iteration of the tool-call loop of `handleUserMessage` (part_001
lines 224-246): run the named tool, set `hasEnded`/`endReason` on
`end-call`, and append the tool-role result message.  An unknown tool name
appends an empty result, as in the source. -/
def dispatchToolCall (st : ConvState) (tc : ToolCall) : ConvState :=
  let fr : String :=
    if tc.name = "search-map" then searchMapTool tc.arg
    else if tc.name = "search-person" then searchPersonLocalTool tc.arg
    else if tc.name = "end-call" then endCallTool tc.arg
    else ""
  let st1 : ConvState :=
    if tc.name = "end-call" then { st with hasEnded := true, endReason := some tc.arg }
    else st
  { st1 with messages := st1.messages ++ [⟨.tool, some fr, [], some tc.id⟩] }

def mainFallbackText : String := "I'm connecting you with emergency services."

def toolFallbackText : String := "I'm processing your emergency. Stay on the line."

/-- The fixed terminal reply returned once the call has ended. -/
def endedResponseText (st : ConvState) : String :=
  "This emergency call has already ended. Reason: " ++
    jsOr st.endReason "Emergency services have been dispatched."

/-- The reply of `handleToolResponse` when `end-call` just fired.  In the
source the reason is spliced by template interpolation, which prints
`undefined` for an absent value. -/
def callEndedText (st : ConvState) : String :=
  "Call ended. " ++ (match st.endReason with | some r => r | none => "undefined") ++
    ". Emergency services have been dispatched to your location. Please stay safe."

structure HandleResult where
  response : String
  hasEnded : Bool
deriving DecidableEq

/-- The external model's successive replies; an `Except.error` entry is a
call that throws. -/
abbrev ModelOracle := List (Except String ModelResponse)

/-- One model call: consume the next oracle entry. An exhausted oracle
behaves like a failing call. -/
def callModel (oracle : ModelOracle) : Except String (ModelResponse × ModelOracle) :=
  match oracle with
  | [] => .error "model unavailable"
  | .error e :: _ => .error e
  | .ok r :: rest => .ok (r, rest)

/-- `handleToolResponse` (part_001 lines 262-288): short-circuit to the
fixed terminal reply when the call has ended; otherwise one follow-up model
call — issued with no tool access and with no surrounding try/catch, so a
failing call propagates.  The `Nat` counts model calls. -/
def handleToolResponse (st : ConvState) (oracle : ModelOracle) :
    Except String (ConvState × HandleResult × Nat) :=
  if st.hasEnded then
    .ok (st, ⟨callEndedText st, true⟩, 0)
  else
    match callModel oracle with
    | .error e => .error e
    | .ok (resp, _) =>
      let st1 := { st with messages := st.messages ++ [⟨.assistant, resp.content, resp.toolCalls, none⟩] }
      .ok (st1, ⟨jsOr resp.content toolFallbackText, st1.hasEnded⟩, 1)

/-- `handleUserMessage` (part_001 lines 123-257).  Initializes the session
when inactive, short-circuits when the call has ended, otherwise appends
the user message and performs the model call — unguarded in the source, so
a thrown failure propagates to the caller — then dispatches any requested
tool calls and lets `handleToolResponse` produce the follow-up reply. -/
def handleUserMessage (st0 : ConvState) (userMessage : String) (oracle : ModelOracle) :
    Except String (ConvState × HandleResult × Nat) :=
  let st := if st0.isActive then st0 else startedState
  if st.hasEnded then
    .ok (st, ⟨endedResponseText st, true⟩, 0)
  else
    let st1 : ConvState :=
      { st with messages := st.messages ++ [⟨.user, some userMessage, [], none⟩] }
    match callModel oracle with
    | .error e => .error e
    | .ok (resp, rest) =>
      let st2 : ConvState :=
        { st1 with messages := st1.messages ++ [⟨.assistant, resp.content, resp.toolCalls, none⟩] }
      if resp.toolCalls = [] then
        .ok (st2, ⟨jsOr resp.content mainFallbackText, st2.hasEnded⟩, 1)
      else
        let st3 := resp.toolCalls.foldl dispatchToolCall st2
        match handleToolResponse st3 rest with
        | .error e => .error e
        | .ok (st4, r, n) => .ok (st4, r, n + 1)

/-! ### The bounded tool-call loop of `analyzeConversation`

`analyzeConversation` (helper.ts lines 299-308) delegates its tool-call
loop to the external generation engine, configured with `maxSteps: 4`. -/

def apologyFallbackText : String :=
  "I'm sorry, I'm having trouble right now. Please stay on the line."

/-- Modelled from the spec: the tool-call resolution loop of the external
text-generation engine as configured by `analyzeConversation` with
`maxSteps: 4` — the loop body itself lives in the `ai` package, outside
this repository.  Per the spec (section 4.2): each round is one model call;
a reply with no tool calls ends the loop; "This repeats up to a small fixed
bound (4 rounds) to prevent infinite tool-call loops; exceeding the bound
surfaces the last available text or a fallback apology string."  Returns
the number of rounds performed and the surfaced text. -/
def dispatchLoop : Nat → List ModelResponse → Option String → Nat × String
  | 0, _, lastText => (0, lastText.getD apologyFallbackText)
  | _ + 1, [], lastText => (0, lastText.getD apologyFallbackText)
  | n + 1, r :: rest, lastText =>
    let lt := match r.content with
      | some c => some c
      | none => lastText
    if r.toolCalls = [] then (1, lt.getD apologyFallbackText)
    else
      let p := dispatchLoop n rest lt
      (p.1 + 1, p.2)

/-! ### Batch analysis route (src/pages/helper.ts, first page variant)

`searchLocation` / `searchPerson` tool executors, the extraction loop of
`analyzeConversation`, and the `POST` wrapper.  Web search and structured
extraction are oracles; every executor result carries a flag recording
whether the web-search service was called. -/

structure LocToolResult where
  latitude : Option Int
  longitude : Option Int
  address : Option String
  confidence : Option String
  status : String
  message : Option String
  source : Option String
deriving DecidableEq

structure PersonToolResult where
  name : String
  age : Option Int
  background : String
  status : String
  source : Option String
deriving DecidableEq

/-- JavaScript `String.prototype.trim`, over the character list: strip
leading and trailing whitespace.  (Lean's own `String.trim` walks byte
positions through well-founded recursion and does not reduce inside the
kernel; this definition strips the same characters on the ASCII inputs of
interest.) -/
def jsTrim (s : String) : String :=
  ⟨((s.data.dropWhile Char.isWhitespace).reverse.dropWhile Char.isWhitespace).reverse⟩

/-- The guard of `searchLocation` (helper.ts line 86):
`!query || query.trim().length < 3 || query === "I am" || query === "breathe"`. -/
def locationQueryGuard (query : String) : Bool :=
  query == "" || decide ((jsTrim query).length < 3) || query == "I am" || query == "breathe"

/-- The guard of `searchPerson` (helper.ts line 180):
`!name || name.trim().length < 3 || name === "I am"`. -/
def personQueryGuard (name : String) : Bool :=
  name == "" || decide ((jsTrim name).length < 3) || name == "I am"

/-- `extractCoordinatesWithAI` (helper.ts lines 34-75): empty text yields
no coordinates; every internal failure is caught and yields no
coordinates; otherwise the structured-extraction oracle's coordinates are
returned. -/
def extractCoordinatesWithAI (text : String)
    (oracle : Except String (Option Int × Option Int)) : Option Int × Option Int :=
  if text = "" then (none, none)
  else
    match oracle with
    | .error _ => (none, none)
    | .ok p => p

/-- The `execute` body of the `searchLocation` tool (helper.ts lines
81-168).  `webOracle` is the web-search call: `.error` for a throwing
call, `.ok none` for a response without `ai_overview`, `.ok (some t)` for
an AI overview `t`.  The second component records whether the web-search
service was called. -/
def searchLocationExec (query : String) (webOracle : Except String (Option String))
    (extractOracle : Except String (Option Int × Option Int)) : LocToolResult × Bool :=
  if locationQueryGuard query then
    (⟨none, none, none, none, "skipped", some "Location query was too vague or short", none⟩,
      false)
  else
    match webOracle with
    | .error _ =>
      (⟨none, none, none, none, "error", some "Failed to retrieve location data", none⟩, true)
    | .ok none =>
      (⟨none, none, none, none, "no_ai_overview", some "No AI overview found", none⟩, true)
    | .ok (some overview) =>
      match extractCoordinatesWithAI overview extractOracle with
      | (some la, some lo) =>
        (⟨some la, some lo, some query, some "high", "success", none, some "ai_overview"⟩, true)
      | _ =>
        (⟨none, none, none, none, "no_coordinates",
          some "No coordinates found in AI overview", none⟩, true)

/-- The `execute` body of the `searchPerson` tool (helper.ts lines
175-278).  `extractOracle` is the biographical structured-extraction call,
returning an age and a background; its parse failure falls back to the
first 200 characters of the overview.  The second component records
whether the web-search service was called. -/
def searchPersonExec (name : String) (webOracle : Except String (Option String))
    (extractOracle : Except String (Option Int × Option String)) : PersonToolResult × Bool :=
  if personQueryGuard name then
    (⟨name, none, "Name query was too vague or short", "skipped", none⟩, false)
  else
    match webOracle with
    | .error _ =>
      (⟨name, none, "No information found (API error)", "error", none⟩, true)
    | .ok none =>
      (⟨name, none, "No information found", "no_ai_overview", none⟩, true)
    | .ok (some overview) =>
      let parsed : Option Int × Option String :=
        match extractOracle with
        | .error _ => (none, some (overview.take 200))
        | .ok p => p
      let age : Option Int :=
        match parsed.1 with
        | some a => if a = 0 then none else some a
        | none => none
      (⟨name, age, jsOr parsed.2 (overview.take 200), "success", some "ai_overview"⟩, true)

/-- A tool result named inside a generation step. -/
inductive ToolRes where
  | location (r : LocToolResult)
  | person (r : PersonToolResult)
deriving DecidableEq

structure StepToolResult where
  name : String
  result : ToolRes
deriving DecidableEq

structure StepRec where
  toolResults : List StepToolResult
deriving DecidableEq

/-- JavaScript truthiness of a possibly-absent number: absent and zero are
falsy. -/
def jsTruthyInt : Option Int → Bool
  | none => false
  | some n => n != 0

/-- The quality gate of `analyzeConversation` for a person result
(helper.ts line 337): a truthy `background` that differs from the literal
`"No background found"`. -/
def personBackgroundGate (background : String) : Bool :=
  background != "" && background != "No background found"

/-- The extraction loop of `analyzeConversation` (helper.ts lines
318-349): scan every step's tool results, keeping the last location result
with truthy coordinates and the last person result passing the background
gate; `foundInfo` records whether anything was kept. -/
def extractLoop (steps : List StepRec) :
    Option LocToolResult × Option PersonToolResult × Bool :=
  steps.foldl
    (fun acc step =>
      step.toolResults.foldl
        (fun acc tr =>
          if tr.name = "searchLocation" then
            match tr.result with
            | .location r =>
              if jsTruthyInt r.latitude && jsTruthyInt r.longitude then (some r, acc.2.1, true)
              else acc
            | _ => acc
          else if tr.name = "searchPerson" then
            match tr.result with
            | .person r =>
              if personBackgroundGate r.background then (acc.1, some r, true)
              else acc
            | _ => acc
          else acc)
        acc)
    (none, none, false)

structure AMsg where
  role : String
  content : String
deriving DecidableEq

structure NotifMsg where
  role : String
  content : String
  isSystemNotification : Bool
deriving DecidableEq

structure AnalyzeResult where
  location : Option LocToolResult
  callerProfile : Option PersonToolResult
  newMessage : Option NotifMsg
deriving DecidableEq

/-- The system-notification parts built by `analyzeConversation` (helper.ts
lines 360-373).  Numeric rendering (`toFixed(4)`) is modelled by
`toString`; no verified claim inspects the rendered digits. -/
def notificationParts (location : Option LocToolResult)
    (callerProfile : Option PersonToolResult) : List String :=
  (match location with
   | some l =>
     if jsTruthyInt l.latitude && jsTruthyInt l.longitude then
       ["Location identified: " ++ jsOr l.address "Unknown" ++ " (" ++
         (l.latitude.getD 0).repr ++ ", " ++ (l.longitude.getD 0).repr ++ ")"]
     else []
   | none => []) ++
  (match callerProfile with
   | some p =>
     if p.name != "" then
       ("Caller identified: " ++ p.name ++
          (match p.age with
           | some a => if a = 0 then "" else ", age " ++ a.repr
           | none => "")) ::
       (if p.background != "" then ["Background: " ++ p.background] else [])
     else []
   | none => [])

/-- `analyzeConversation` (helper.ts lines 285-393).  Returns fewer than 3
messages untouched with no model call; otherwise performs the tool-enabled
generation call — `oracle` holds its steps, `.error` for a throwing call,
which the surrounding try/catch converts to the all-null result — and runs
the extraction loop.  The freshly minted notification id and its empty
audio buffer are omitted from `NotifMsg`; no claim inspects them.  The
`Nat` counts model calls. -/
def analyzeConversation (messages : List AMsg)
    (oracle : Except String (List StepRec)) : AnalyzeResult × Nat :=
  if messages.length < 3 then (⟨none, none, none⟩, 0)
  else
    match oracle with
    | .error _ => (⟨none, none, none⟩, 1)
    | .ok steps =>
      let e := extractLoop steps
      let nm : Option NotifMsg :=
        if e.2.2 then
          let parts := notificationParts e.1 e.2.1
          if parts ≠ [] then
            some ⟨"assistant", "[System] " ++ String.intercalate ". " parts, true⟩
          else none
        else none
      (⟨e.1, e.2.1, nm⟩, 1)

structure PostResult where
  location : Option LocToolResult
  caller : Option PersonToolResult
  newMessage : Option NotifMsg
deriving DecidableEq

/-- The `POST` handler (helper.ts lines 396-400): delegate to
`analyzeConversation` and rename `callerProfile` to `caller`. -/
def POST (messages : List AMsg) (oracle : Except String (List StepRec)) :
    PostResult × Nat :=
  let r := analyzeConversation messages oracle
  (⟨r.1.location, r.1.callerProfile, r.1.newMessage⟩, r.2)

/-! ### Enrichment fan-out of `asyncChecks` (helper.ts lines 666-751)

The decision step returns, per service, an extracted query and a
`should_use` flag.  The geo branch (lines 700-711, 720-730) fetches the
Google places `searchText` endpoint only when `should_use` holds and the
query is truthy, with the literal suffix appended; a response whose first
place exists becomes the location panel state. -/

structure GeoDecision where
  query : Option String
  should_use : Bool
deriving DecidableEq

structure Place where
  formattedAddress : String
  latitude : Int
  longitude : Int
deriving DecidableEq

structure LocationPanel where
  address : String
  latitude : Int
  longitude : Int
deriving DecidableEq

/-- The geo-location branch of `asyncChecks`: first component is the text
query sent to the places service (`none` when no call is made), second is
the location panel update (`none` when the panel is left untouched).
`resp` is the `places` array of the service response, `none` when the
field is absent. -/
def geoStep (d : GeoDecision) (resp : Option (List Place)) :
    Option String × Option LocationPanel :=
  match d.query with
  | none => (none, none)
  | some q =>
    if d.should_use && q != "" then
      let panel : Option LocationPanel :=
        match resp with
        | some (p :: _) => some ⟨p.formattedAddress, p.latitude, p.longitude⟩
        | _ => none
      (some (q ++ " San Francisco, USA"), panel)
    else (none, none)

/-! ## Supporting lemmas -/

theorem attempts_snapSpeaking_false {s : SysState} (h : Reachable s) :
    ∀ a ∈ s.attempts, a.snapSpeaking = false := by
  induction h with
  | init =>
    intro a ha
    cases ha
  | step hr hst ih =>
    intro a ha
    cases hst with
    | initSpeaker => exact ih a ha
    | speechStart => exact ih a ha
    | finalize c b => exact ih a ha
    | startRespond m hm hrole hsp =>
      rcases List.mem_cons.mp ha with rfl | ha'
      · exact hsp
      · exact ih a ha'
    | advance a0 ha0 hpc hfresh =>
      rcases List.mem_cons.mp ha with rfl | ha'
      · exact ih a0 ha0
      · exact ih a (List.mem_of_mem_erase ha')
    | abortStale a0 ha0 hstale => exact ih a (List.mem_of_mem_erase ha)
    | commit a0 t b ha0 hpc hfresh hready => exact ih a (List.mem_of_mem_erase ha)
    | commitNoSpeaker a0 ha0 hpc hfresh hready => exact ih a (List.mem_of_mem_erase ha)
    | mergeSent tid emo => exact ih a ha

theorem reachable_exT6 : Reachable exT6 := by
  have h1 : Reachable exT1 := Reachable.step Reachable.init (Step.initSpeaker initState)
  have h2 : Reachable exT2 :=
    Reachable.step h1 (Step.finalize exT1 "There is a fire at Main and 5th" [7])
  have h3 : Reachable exT3 :=
    Reachable.step h2
      (Step.startRespond exT2 ⟨0, .user, "There is a fire at Main and 5th", [7], none⟩
        (by decide) rfl rfl)
  have h4 : Reachable exT4 := Reachable.step h3 (Step.speechStart exT3)
  have h5 : Reachable exT5 :=
    Reachable.step h4 (Step.finalize exT4 "He is coming closer" [4])
  exact Reachable.step h5
    (Step.startRespond exT5 ⟨1, .user, "He is coming closer", [4], none⟩
      (by decide) rfl rfl)

theorem reachable_exT8 : Reachable exT8 := by
  have h7 : Reachable exT7 :=
    Reachable.step reachable_exT6
      (Step.advance exT6 exA1 (by decide) (by decide) (by decide))
  exact Reachable.step h7 (Step.advance exT7 exA1b (by decide) (by decide) (by decide))

theorem reachable_exT12 : Reachable exT12 := by
  have h9 : Reachable exT9 :=
    Reachable.step reachable_exT8
      (Step.commit exT8 exA1c "Okay, officers are on the way." [5]
        (by decide) rfl (by decide) rfl)
  have h10 : Reachable exT10 :=
    Reachable.step h9 (Step.advance exT9 exA2 (by decide) (by decide) (by decide))
  have h11 : Reachable exT11 :=
    Reachable.step h10 (Step.advance exT10 exA2b (by decide) (by decide) (by decide))
  exact Reachable.step h11
    (Step.commit exT11 exA2c "Stay on the line with me." [6]
      (by decide) rfl (by decide) rfl)

/-! ## Claims -/

/-- C1 (code defect): the staleness checks of `respond` read the
render-scoped closure snapshot, so they can never fire, and stale attempts
do commit.  In the reachable rapid-interruption interleaving (U2 finalized
while U1's attempt is in flight), U1's attempt commits from `exT8`
although the live last entry is U2 (id 1) and its captured trigger is U1
(id 0) — a stale commit whose triggering user entry is not the most recent
user entry at append time — and after U2's attempt also commits, the
reachable timeline `exT12` holds two consecutive assistant entries.  Both
halves of the claim are false of the program. -/
theorem stale_attempt_commits_consecutive_assistants :
    Reachable exT8 ∧
    Step exT8 (.commit exA1c "Okay, officers are on the way." [5]) exT9 ∧
    capturedLastID exA1c = some 0 ∧
    lastMsgId exT8.timeline = some 1 ∧
    lastMsgId exT8.timeline ≠ capturedLastID exA1c ∧
    Reachable exT12 ∧
    ¬ NoTwoAssistants exT12.timeline :=
  ⟨reachable_exT8,
    Step.commit exT8 exA1c "Okay, officers are on the way." [5]
      (by decide) rfl (by decide) rfl,
    by decide, by decide, by decide,
    reachable_exT12,
    by
      intro h
      unfold NoTwoAssistants at h
      rw [(by decide : rolesOf exT12.timeline =
        [Role.user, Role.user, Role.assistant, Role.assistant])] at h
      simp [List.chain'_cons] at h⟩

/-- C2 (code defect): a generation attempt never re-reads the timeline's
current last-message id.  The check of lines 774/785/792 compares the
closure snapshot's last id to the `lastID` derived from that same snapshot
— identically false — so the whole condition collapses to the snapshot's
`isSpeaking`; every attempt started by the turn-check effect has a false
snapshot `isSpeaking`, so no reachable attempt can ever take the abandon
transition; and a resumption whose live last-message id differs from the
captured one still appends its assistant message and starts playback.  The
claim's abandon-on-mismatch behavior does not exist in the program. -/
theorem staleness_check_never_aborts :
    (∀ a : Attempt, respondStaleCheck a ↔ a.snapSpeaking = true) ∧
    (∀ s, Reachable s → ∀ a ∈ s.attempts, a.snapSpeaking = false) ∧
    (∀ s s' a, Reachable s → ¬ Step s (.abortStale a) s') ∧
    lastMsgId exT8.timeline ≠ capturedLastID exA1c ∧
    Step exT8 (.commit exA1c "Okay, officers are on the way." [5]) exT9 ∧
    exT9.timeline = exT8.timeline ++
      [⟨2, .assistant, "Okay, officers are on the way.", [5], none⟩] ∧
    exT9.playing = true := by
  have hiff : ∀ a : Attempt, respondStaleCheck a ↔ a.snapSpeaking = true := by
    intro a
    constructor
    · rintro (h | h)
      · exact absurd rfl h
      · exact h
    · exact Or.inr
  have hsnap : ∀ s, Reachable s → ∀ a ∈ s.attempts, a.snapSpeaking = false :=
    fun s hs => attempts_snapSpeaking_false hs
  refine ⟨hiff, hsnap, ?_, by decide,
    Step.commit exT8 exA1c "Okay, officers are on the way." [5]
      (by decide) rfl (by decide) rfl,
    by decide, by decide⟩
  intro s s' a hs hstep
  cases hstep with
  | abortStale a ha hstale =>
    have := hsnap s hs a ha
    rw [hiff a, this] at hstale
    exact Bool.noConfusion hstale

/-- Witness for C2 at concrete inputs: attempt 1's check is equivalent to
its (false) snapshot `isSpeaking`, every attempt of the reachable `exT6`
has a false snapshot `isSpeaking`, and the abandon transition for attempt
1 is impossible from `exT6`. -/
theorem staleness_check_never_aborts_witness :
    (respondStaleCheck exA1 ↔ exA1.snapSpeaking = true) ∧
    exA1.snapSpeaking = false ∧
    ¬ Step exT6 (.abortStale exA1) { exT6 with attempts := exT6.attempts.erase exA1 } :=
  ⟨staleness_check_never_aborts.1 exA1,
    staleness_check_never_aborts.2.1 exT6 reachable_exT6 exA1 (by decide),
    staleness_check_never_aborts.2.2.1 exT6
      { exT6 with attempts := exT6.attempts.erase exA1 } exA1 reachable_exT6⟩

/-- C3: when the model requests the `end-call` tool with a reason, the
session ends: `hasEnded` becomes true, `endReason` records the reason, and
the turn returns the terminal reply after the single model call already
made; and once `hasEnded` holds, every subsequent `handleUserMessage` call
returns the fixed call-has-ended response with `hasEnded = true`, performs
no model call, and leaves the model-facing conversation unchanged (the
returned state is the input state, so the new user message is not
appended). -/
theorem end_call_terminates_session :
    (∀ (st : ConvState) (msg : String) (c : Option String) (tcid reason : String)
        (rest : ModelOracle),
        st.isActive = true → st.hasEnded = false →
        ∃ stF : ConvState,
          handleUserMessage st msg (.ok ⟨c, [⟨tcid, "end-call", reason⟩]⟩ :: rest) =
            .ok (stF, ⟨callEndedText stF, true⟩, 1) ∧
          stF.hasEnded = true ∧ stF.endReason = some reason ∧ stF.isActive = true) ∧
    (∀ (st : ConvState) (msg : String) (oracle : ModelOracle),
        st.isActive = true → st.hasEnded = true →
        handleUserMessage st msg oracle = .ok (st, ⟨endedResponseText st, true⟩, 0)) := by
  constructor
  · intro st msg c tcid reason rest hact hend
    refine ⟨{ st with
        hasEnded := true, endReason := some reason,
        messages := ((st.messages ++ [⟨.user, some msg, [], none⟩]) ++
          [⟨.assistant, c, [⟨tcid, "end-call", reason⟩], none⟩]) ++
          [⟨.tool, some (endCallTool reason), [], some tcid⟩] }, ?_, rfl, rfl, hact⟩
    simp [handleUserMessage, callModel, dispatchToolCall, handleToolResponse, hact, hend]
  · intro st msg oracle hact hend
    simp [handleUserMessage, hact, hend]

/-- Witness for C3: a fresh session receives an `end-call` request with
reason "help dispatched"; the resulting ended session short-circuits the
next call. -/
theorem end_call_terminates_session_witness :
    (∃ stF : ConvState,
      handleUserMessage startedState "There is a fire"
          (.ok ⟨some "Help is on the way.", [⟨"tc1", "end-call", "help dispatched"⟩]⟩ :: []) =
        .ok (stF, ⟨callEndedText stF, true⟩, 1) ∧
      stF.hasEnded = true ∧ stF.endReason = some "help dispatched" ∧ stF.isActive = true) ∧
    handleUserMessage
        { startedState with hasEnded := true, endReason := some "help dispatched" }
        "Hello?" [] =
      .ok ({ startedState with hasEnded := true, endReason := some "help dispatched" },
        ⟨endedResponseText
          { startedState with hasEnded := true, endReason := some "help dispatched" }, true⟩, 0) :=
  ⟨end_call_terminates_session.1 startedState "There is a fire" (some "Help is on the way.")
      "tc1" "help dispatched" [] rfl rfl,
    end_call_terminates_session.2
      { startedState with hasEnded := true, endReason := some "help dispatched" }
      "Hello?" [] rfl rfl⟩

/-- C4 counterexample: the model call inside `handleUserMessage` (part_001
lines 208-215) has no surrounding try/catch, so a throwing model call
propagates out of `handleUserMessage` instead of being converted to an
error result — refuting the claim that no such failure escapes. -/
theorem model_failure_escapes_handleUserMessage :
    handleUserMessage initialConversationState "There is a fire at Main and 5th"
      [.error "network failure"] = .error "network failure" := by
  simp [handleUserMessage, callModel, initialConversationState, startedState]

/-- C4 amended: failures of the model call inside `analyzeConversation`
and failures of the web-search calls inside the `searchLocation` /
`searchPerson` tools are caught at the dispatch boundary and converted to
an all-null result resp. a `status: "error"` result; but the model calls
of `handleUserMessage` / `handleToolResponse` are unguarded, so a model
failure there propagates uncaught out of `handleUserMessage`. -/
theorem dispatch_error_containment :
    (∀ (messages : List AMsg) (e : String),
        (analyzeConversation messages (.error e)).1 =
          ⟨none, none, none⟩) ∧
    (∀ (q eWeb : String) (eo : Except String (Option Int × Option Int)),
        locationQueryGuard q = false →
        (searchLocationExec q (.error eWeb) eo).1.status = "error") ∧
    (∀ (nm eWeb : String) (eo : Except String (Option Int × Option String)),
        personQueryGuard nm = false →
        (searchPersonExec nm (.error eWeb) eo).1.status = "error") ∧
    (∀ (st : ConvState) (msg e : String),
        st.isActive = true → st.hasEnded = false →
        handleUserMessage st msg [.error e] = .error e) := by
  refine ⟨?_, ?_, ?_, ?_⟩
  · intro messages e
    unfold analyzeConversation
    split <;> rfl
  · intro q eWeb eo hg
    simp [searchLocationExec, hg]
  · intro nm eWeb eo hg
    simp [searchPersonExec, hg]
  · intro st msg e hact hend
    simp [handleUserMessage, callModel, hact, hend]

/-- Witness for C4's amended statement at concrete inputs. -/
theorem dispatch_error_containment_witness :
    (analyzeConversation [⟨"user", "a"⟩, ⟨"assistant", "b"⟩, ⟨"user", "c"⟩]
        (.error "boom")).1 = ⟨none, none, none⟩ ∧
    (searchLocationExec "Main and 5th" (.error "boom") (.ok (none, none))).1.status = "error" ∧
    (searchPersonExec "John Smith" (.error "boom") (.ok (none, none))).1.status = "error" ∧
    handleUserMessage startedState "There is a fire" [.error "boom"] = .error "boom" :=
  ⟨dispatch_error_containment.1 [⟨"user", "a"⟩, ⟨"assistant", "b"⟩, ⟨"user", "c"⟩] "boom",
    dispatch_error_containment.2.1 "Main and 5th" "boom" (.ok (none, none)) (by decide),
    dispatch_error_containment.2.2.1 "John Smith" "boom" (.ok (none, none)) (by decide),
    dispatch_error_containment.2.2.2 startedState "There is a fire" "boom" rfl rfl⟩

theorem dispatchLoop_rounds_le (n : Nat) (oracle : List ModelResponse) (lt : Option String) :
    (dispatchLoop n oracle lt).1 ≤ n := by
  induction n generalizing oracle lt with
  | zero => simp [dispatchLoop]
  | succ n ih =>
    cases oracle with
    | nil => simp [dispatchLoop]
    | cons r rest =>
      simp only [dispatchLoop]
      split
      · simp
      · simpa using Nat.succ_le_succ (ih rest _)

theorem dispatchLoop_bound_hit (n : Nat) (oracle : List ModelResponse) (lt : Option String)
    (h : ∀ r ∈ oracle, r.toolCalls ≠ [] ∧ r.content = none) :
    (dispatchLoop n oracle lt).2 = lt.getD apologyFallbackText := by
  induction n generalizing oracle with
  | zero => simp [dispatchLoop]
  | succ n ih =>
    cases oracle with
    | nil => simp [dispatchLoop]
    | cons r rest =>
      obtain ⟨htc, hc⟩ := h r (List.mem_cons_self _ _)
      simp only [dispatchLoop, hc]
      rw [if_neg htc]
      exact ih rest (fun r' hr' => h r' (List.mem_cons_of_mem _ hr'))

theorem handleToolResponse_calls_le_one (st : ConvState) (oracle : ModelOracle)
    (st' : ConvState) (r : HandleResult) (n : Nat)
    (h : handleToolResponse st oracle = .ok (st', r, n)) : n ≤ 1 := by
  simp only [handleToolResponse] at h
  split at h
  · cases h
    omega
  · split at h
    · cases h
    · cases h
      omega

theorem handleUserMessage_calls_le_two (st : ConvState) (msg : String) (oracle : ModelOracle)
    (st' : ConvState) (r : HandleResult) (n : Nat)
    (h : handleUserMessage st msg oracle = .ok (st', r, n)) : n ≤ 2 := by
  simp only [handleUserMessage] at h
  repeat' split at h
  all_goals try cases h
  all_goals try omega
  all_goals
    exact Nat.succ_le_succ (handleToolResponse_calls_le_one _ _ _ _ _ (by assumption))

/-- C5: the tool-call resolution loop performs at most 4 model rounds per
turn.  For `analyzeConversation` the loop lives in the external generation
engine, configured with `maxSteps: 4` and modelled by `dispatchLoop`: it
performs at most 4 rounds, and when the model keeps requesting tool calls
(yielding no text) the bound is hit and the carried last available text —
or the apology fallback when none exists — is surfaced.  The dispatcher of
part_001 performs at most 2 model calls per turn (one tool round plus one
follow-up), hence also at most 4. -/
theorem tool_loop_bounded :
    (∀ (oracle : List ModelResponse) (lt : Option String),
        (dispatchLoop 4 oracle lt).1 ≤ 4) ∧
    (∀ (oracle : List ModelResponse) (lt : Option String),
        (∀ r ∈ oracle, r.toolCalls ≠ [] ∧ r.content = none) →
        (dispatchLoop 4 oracle lt).2 = lt.getD apologyFallbackText) ∧
    (∀ (st : ConvState) (msg : String) (oracle : ModelOracle)
        (st' : ConvState) (r : HandleResult) (n : Nat),
        handleUserMessage st msg oracle = .ok (st', r, n) → n ≤ 4) :=
  ⟨fun oracle lt => dispatchLoop_rounds_le 4 oracle lt,
    fun oracle lt h => dispatchLoop_bound_hit 4 oracle lt h,
    fun st msg oracle st' r n h =>
      Nat.le_trans (handleUserMessage_calls_le_two st msg oracle st' r n h) (by omega)⟩

/-- Witness for C5: a model that requests tools five times in a row is cut
off at the bound with the apology fallback, and a concrete part_001 turn
with one tool round performs 2 ≤ 4 model calls. -/
theorem tool_loop_bounded_witness :
    (dispatchLoop 4 (List.replicate 5 ⟨none, [⟨"t1", "search-map", "downtown"⟩]⟩) none).1 ≤ 4 ∧
    (dispatchLoop 4 (List.replicate 5 ⟨none, [⟨"t1", "search-map", "downtown"⟩]⟩) none).2 =
      (none : Option String).getD apologyFallbackText ∧
    (2 : Nat) ≤ 4 :=
  ⟨tool_loop_bounded.1 (List.replicate 5 ⟨none, [⟨"t1", "search-map", "downtown"⟩]⟩) none,
    tool_loop_bounded.2.1 (List.replicate 5 ⟨none, [⟨"t1", "search-map", "downtown"⟩]⟩) none
      (by decide),
    tool_loop_bounded.2.2 startedState "There is a fire at Main and 5th"
      [.ok ⟨some "Let me check.", [⟨"t1", "search-map", "Main and 5th"⟩]⟩,
        .ok ⟨some "Officers are on the way.", []⟩]
      _ _ _ (by rfl)⟩

/-- C6: a `searchLocation` query that is empty, of trimmed length below 3,
or equal to the filler phrases "I am" / "breathe" — and a `searchPerson`
name that is empty, of trimmed length below 3, or equal to "I am" — yields
a `status: "skipped"` result with no web-search call; every other argument
reaches the web-search service. -/
theorem search_query_guards :
    (∀ (q : String) (wo : Except String (Option String))
        (eo : Except String (Option Int × Option Int)),
        (locationQueryGuard q = true →
          (searchLocationExec q wo eo).1.status = "skipped" ∧
          (searchLocationExec q wo eo).2 = false) ∧
        (locationQueryGuard q = false → (searchLocationExec q wo eo).2 = true)) ∧
    (∀ (nm : String) (wo : Except String (Option String))
        (eo : Except String (Option Int × Option String)),
        (personQueryGuard nm = true →
          (searchPersonExec nm wo eo).1.status = "skipped" ∧
          (searchPersonExec nm wo eo).2 = false) ∧
        (personQueryGuard nm = false → (searchPersonExec nm wo eo).2 = true)) ∧
    (∀ q : String, locationQueryGuard q = true ↔
        (q = "" ∨ (jsTrim q).length < 3 ∨ q = "I am" ∨ q = "breathe")) ∧
    (∀ nm : String, personQueryGuard nm = true ↔
        (nm = "" ∨ (jsTrim nm).length < 3 ∨ nm = "I am")) := by
  refine ⟨?_, ?_, ?_, ?_⟩
  · intro q wo eo
    constructor
    · intro hg
      simp [searchLocationExec, hg]
    · intro hg
      simp only [searchLocationExec, hg, Bool.false_eq_true, if_false]
      rcases wo with e | ov
      · rfl
      · rcases ov with _ | t
        · rfl
        · rcases hx : extractCoordinatesWithAI t eo with ⟨la, lo⟩
          simp only [hx]
          rcases la with _ | la <;> rcases lo with _ | lo <;> rfl
  · intro nm wo eo
    constructor
    · intro hg
      simp [searchPersonExec, hg]
    · intro hg
      simp only [searchPersonExec, hg, Bool.false_eq_true, if_false]
      rcases wo with e | ov
      · rfl
      · rcases ov with _ | t <;> rfl
  · intro q
    simp only [locationQueryGuard, Bool.or_eq_true, beq_iff_eq, decide_eq_true_eq]
    tauto
  · intro nm
    simp only [personQueryGuard, Bool.or_eq_true, beq_iff_eq, decide_eq_true_eq]
    tauto

/-- Witness for C6 at concrete queries: "I am" and a two-letter name are
skipped with no network call; a real place name reaches the service. -/
theorem search_query_guards_witness :
    ((searchLocationExec "I am" (.ok none) (.ok (none, none))).1.status = "skipped" ∧
      (searchLocationExec "I am" (.ok none) (.ok (none, none))).2 = false) ∧
    (searchLocationExec "Golden Gate Bridge" (.ok none) (.ok (none, none))).2 = true ∧
    ((searchPersonExec "ab" (.ok none) (.ok (none, none))).1.status = "skipped" ∧
      (searchPersonExec "ab" (.ok none) (.ok (none, none))).2 = false) ∧
    (searchPersonExec "John Smith" (.ok none) (.ok (none, none))).2 = true :=
  ⟨(search_query_guards.1 "I am" (.ok none) (.ok (none, none))).1 (by decide),
    (search_query_guards.1 "Golden Gate Bridge" (.ok none) (.ok (none, none))).2 (by decide),
    (search_query_guards.2.1 "ab" (.ok none) (.ok (none, none))).1 (by decide),
    (search_query_guards.2.1 "John Smith" (.ok none) (.ok (none, none))).2 (by decide)⟩

/-- C7: the sentiment merge of `asyncChecks` preserves every field except
sentiment of every entry, and the order and length of the timeline (the
`stripSentiment` image is unchanged); a timeline without the triggering id
is returned entirely unchanged; entries other than the located one are
untouched; and when the id occurs, the first entry carrying it receives
exactly the sentiment label.  Location and person results flow into the
separate panel values (`geoStep`'s `LocationPanel` output), never into the
timeline. -/
theorem sentiment_merge_frame :
    ∀ (tl : List Msg) (t : Nat) (emo : String),
      (mergeSentimentFn tl t emo).map stripSentiment = tl.map stripSentiment ∧
      ((∀ m ∈ tl, m.id ≠ t) → mergeSentimentFn tl t emo = tl) ∧
      (∀ (j : Nat) (x : Msg), tl[j]? = some x → x.id ≠ t →
        (mergeSentimentFn tl t emo)[j]? = some x) ∧
      (t ∈ idsOf tl → ∃ (j : Nat) (x : Msg), tl[j]? = some x ∧ x.id = t ∧
        (mergeSentimentFn tl t emo)[j]? = some { x with sentiment := some emo }) := by
  intro tl t emo
  induction tl with
  | nil =>
    refine ⟨rfl, fun _ => rfl, ?_, ?_⟩ <;> simp [idsOf, mergeSentimentFn]
  | cons m rest ih =>
    obtain ⟨ih1, ih2, ih3, ih4⟩ := ih
    by_cases hm : m.id = t
    · refine ⟨?_, ?_, ?_, ?_⟩
      · simp [mergeSentimentFn, hm, stripSentiment]
      · intro hall
        exact absurd hm (hall m (List.mem_cons_self _ _))
      · intro j x hj hx
        cases j with
        | zero =>
          simp only [List.getElem?_cons_zero, Option.some.injEq] at hj
          subst hj
          exact absurd hm hx
        | succ j =>
          simpa [mergeSentimentFn, hm] using hj
      · intro _
        exact ⟨0, m, by simp, hm, by simp [mergeSentimentFn, hm]⟩
    · refine ⟨?_, ?_, ?_, ?_⟩
      · simp [mergeSentimentFn, hm, ih1]
      · intro hall
        simp [mergeSentimentFn, hm, ih2 (fun x hx => hall x (List.mem_cons_of_mem _ hx))]
      · intro j x hj hx
        cases j with
        | zero =>
          simp only [List.getElem?_cons_zero, Option.some.injEq] at hj
          subst hj
          simp [mergeSentimentFn, hm]
        | succ j =>
          simp only [List.getElem?_cons_succ] at hj
          simpa [mergeSentimentFn, hm] using ih3 j x hj hx
      · intro ht
        have ht' : t ∈ idsOf rest := by
          rcases List.mem_cons.mp ht with h | h
          · exact absurd h.symm hm
          · exact h
        obtain ⟨j, x, h1, h2, h3⟩ := ih4 ht'
        exact ⟨j + 1, x, by simpa using h1, h2, by simpa [mergeSentimentFn, hm] using h3⟩

/-- Witness for C7 on a concrete two-entry timeline: merging sentiment for
id 1 keeps every non-sentiment field, leaves the id-0 entry untouched, and
attaches the label at position 1; merging for an absent id is the
identity. -/
theorem sentiment_merge_frame_witness :
    (mergeSentimentFn
        [⟨0, .user, "a", [], none⟩, ⟨1, .user, "b", [], none⟩] 1 "fear").map stripSentiment =
      ([⟨0, .user, "a", [], none⟩, ⟨1, .user, "b", [], none⟩] : List Msg).map stripSentiment ∧
    mergeSentimentFn [⟨0, .user, "a", [], none⟩, ⟨1, .user, "b", [], none⟩] 5 "fear" =
      [⟨0, .user, "a", [], none⟩, ⟨1, .user, "b", [], none⟩] ∧
    (mergeSentimentFn
        [⟨0, .user, "a", [], none⟩, ⟨1, .user, "b", [], none⟩] 1 "fear")[0]? =
      some ⟨0, .user, "a", [], none⟩ ∧
    (∃ (j : Nat) (x : Msg),
      ([⟨0, .user, "a", [], none⟩, ⟨1, .user, "b", [], none⟩] : List Msg)[j]? = some x ∧
      x.id = 1 ∧
      (mergeSentimentFn
        [⟨0, .user, "a", [], none⟩, ⟨1, .user, "b", [], none⟩] 1 "fear")[j]? =
        some { x with sentiment := some "fear" }) :=
  ⟨(sentiment_merge_frame [⟨0, .user, "a", [], none⟩, ⟨1, .user, "b", [], none⟩] 1 "fear").1,
    (sentiment_merge_frame [⟨0, .user, "a", [], none⟩, ⟨1, .user, "b", [], none⟩] 5 "fear").2.1
      (by decide),
    (sentiment_merge_frame [⟨0, .user, "a", [], none⟩, ⟨1, .user, "b", [], none⟩] 1 "fear").2.2.1
      0 ⟨0, .user, "a", [], none⟩ rfl (by decide),
    (sentiment_merge_frame [⟨0, .user, "a", [], none⟩, ⟨1, .user, "b", [], none⟩] 1 "fear").2.2.2
      (by decide)⟩

/-- C8 (code defect): the quality gate of `analyzeConversation` compares
the background against the literal `"No background found"` (helper.ts line
337), but the `searchPerson` tool's no-data placeholder is
`"No information found"` (helper.ts line 213).  A person result carrying
the actual placeholder therefore passes the gate and is reported as the
caller profile, although the claim (and the spec's intended contract)
requires it to be rejected. -/
theorem person_placeholder_accepted :
    (searchPersonExec "John Doe" (.ok none) (.ok (none, none))).1.background =
      "No information found" ∧
    personBackgroundGate "No information found" = true ∧
    (analyzeConversation [⟨"user", "a"⟩, ⟨"assistant", "b"⟩, ⟨"user", "c"⟩]
        (.ok [⟨[⟨"searchPerson",
          .person ⟨"John Doe", none, "No information found", "no_ai_overview", none⟩⟩]⟩])).1.callerProfile =
      some ⟨"John Doe", none, "No information found", "no_ai_overview", none⟩ := by
  refine ⟨by decide, by decide, by decide⟩

/-- C9: a conversation of fewer than 3 messages makes `analyzeConversation`
— and the `POST` handler wrapping it — return the all-null result with
zero model calls (and hence no tool execution, which only happens inside
the model call). -/
theorem few_messages_skip_analysis :
    ∀ (messages : List AMsg) (oracle : Except String (List StepRec)),
      messages.length < 3 →
      analyzeConversation messages oracle = (⟨none, none, none⟩, 0) ∧
      POST messages oracle = (⟨none, none, none⟩, 0) := by
  intro messages oracle h
  constructor
  · unfold analyzeConversation
    rw [if_pos h]
  · unfold POST analyzeConversation
    rw [if_pos h]

/-- Witness for C9 at a two-message conversation. -/
theorem few_messages_skip_analysis_witness :
    analyzeConversation [⟨"user", "Help"⟩, ⟨"assistant", "911, what is your emergency?"⟩]
        (.ok []) = (⟨none, none, none⟩, 0) ∧
    POST [⟨"user", "Help"⟩, ⟨"assistant", "911, what is your emergency?"⟩]
        (.ok []) = (⟨none, none, none⟩, 0) :=
  few_messages_skip_analysis
    [⟨"user", "Help"⟩, ⟨"assistant", "911, what is your emergency?"⟩] (.ok []) (by decide)

/-- C10 counterexample: the decision step marks geo-location-search as
`should_use` with the non-null query `""`, yet no text query is sent to
the place-lookup service (the code requires a *truthy* query, and the
empty string is falsy) — refuting the claim that every non-null query is
sent with the suffix appended. -/
theorem geo_empty_query_not_sent :
    (⟨some "", true⟩ : GeoDecision).should_use = true ∧
    (⟨some "", true⟩ : GeoDecision).query = some "" ∧
    geoStep ⟨some "", true⟩
        (some [⟨"Market St, San Francisco, CA 94103, USA", 37, -122⟩]) = (none, none) ∧
    (geoStep ⟨some "", true⟩
        (some [⟨"Market St, San Francisco, CA 94103, USA", 37, -122⟩])).1 ≠
      some ("" ++ " San Francisco, USA") := by
  refine ⟨rfl, rfl, by decide, by decide⟩

/-- C10 amended: whenever the decision step marks geo-location-search as
`should_use` with a non-null, non-empty query, the text query sent to the
place-lookup service is exactly the extracted query with the literal
suffix " San Francisco, USA" appended, and on a response with at least one
place the location panel is set from the first place's formattedAddress,
latitude and longitude. -/
theorem geo_query_suffix_and_panel :
    ∀ (q : String) (resp : Option (List Place)), q ≠ "" →
      (geoStep ⟨some q, true⟩ resp).1 = some (q ++ " San Francisco, USA") ∧
      (∀ p ps, resp = some (p :: ps) →
        (geoStep ⟨some q, true⟩ resp).2 =
          some ⟨p.formattedAddress, p.latitude, p.longitude⟩) := by
  intro q resp hq
  have hb : (q != "") = true := by
    simpa using hq
  constructor
  · simp [geoStep, hb]
  · intro p ps hr
    subst hr
    simp [geoStep, hb]

/-- Witness for C10's amended statement at a concrete decision and
response. -/
theorem geo_query_suffix_and_panel_witness :
    (geoStep ⟨some "Main and 5th", true⟩
        (some [⟨"Main St & 5th St, San Francisco, CA, USA", 37, -122⟩])).1 =
      some ("Main and 5th" ++ " San Francisco, USA") ∧
    (geoStep ⟨some "Main and 5th", true⟩
        (some [⟨"Main St & 5th St, San Francisco, CA, USA", 37, -122⟩])).2 =
      some ⟨"Main St & 5th St, San Francisco, CA, USA", 37, -122⟩ :=
  ⟨(geo_query_suffix_and_panel "Main and 5th"
      (some [⟨"Main St & 5th St, San Francisco, CA, USA", 37, -122⟩]) (by decide)).1,
    (geo_query_suffix_and_panel "Main and 5th"
      (some [⟨"Main St & 5th St, San Francisco, CA, USA", 37, -122⟩]) (by decide)).2
      ⟨"Main St & 5th St, San Francisco, CA, USA", 37, -122⟩ [] rfl⟩

end NineOneOne
